import Mathlib

/-!
# Verification of the record-store core of `streamlit_app.py`

This file gives a shallow embedding of the state-bearing logic of the
Streamlit business-operations tracker (`src/streamlit_app.py`) and proves
properties about it.

The embedding covers:

* the `Record` data model (one row of the session DataFrame `st.session_state.df`);
* the CSV importer `display_csv_uploader` (schema check, date parsing,
  conditional verbatim load / duplicate-filtered merge);
* the add-update form `display_add_update_form`, including the inline ID
  allocator built from `str.replace('UPDATE-', '')`, `str.isnumeric()`,
  `pd.to_numeric(..., errors='coerce')`, `.max()` and `int(...)`;
* the editable grid plus reconciliation step of `display_existing_updates`
  (`st.data_editor` with `ID`/`Category`/`Date Logged` disabled, followed by
  `if not st.session_state.df.equals(edited_df): st.session_state.df = edited_df`).

Modelling conventions:

* A pandas DataFrame of rows is a `List Record` (order = row order).
* Dates (`datetime64` values) are opaque and modelled as `Int`; the external
  parser `pd.to_datetime` applied to one cell is an abstract parameter
  `pd_to_datetime : String → Option Int` (`none` = the parse raises).
* Python `str` cells are Lean `String`s.  Python's `str.isnumeric` and
  `pd.to_numeric` are modelled on ASCII text: `isnumeric` is "non-empty and
  all decimal digits", `to_numeric` parses an optional sign, decimal digits
  and at most one decimal point, yielding an exact rational (float rounding
  is immaterial to the statements proved here).
* `st.rerun()` only triggers a re-render after the state mutation that
  precedes it; it is not itself a state change and is not modelled.
* What the code *reports* to the user (the `st.success` / `st.error` calls)
  is modelled as explicit fields of the operation's result, carrying the
  counts interpolated into the displayed f-strings.
-/

/-- One logged update: a row of the session DataFrame, with columns
`ID, Category, Update, Status, Priority, Date Logged`. -/
structure Record where
  id : String
  category : String
  update : String
  status : String
  priority : String
  date_logged : Int
deriving DecidableEq, Repr

/-- The `ID` column of a store, in row order. -/
def storeIds (s : List Record) : List String := s.map Record.id

/-! ## Decimal rendering (Python `f"UPDATE-{new_id_num}"`) -/

/-- The ASCII character of a decimal digit `d < 10`. -/
def digitOfNat (d : Nat) : Char := Char.ofNat (48 + d)

/-- Decimal digits of `n`, most significant first.  The first argument is
fuel; any fuel `> n` is enough. -/
def natToDigits : Nat → Nat → List Char
  | 0, _ => []
  | f + 1, n =>
    if n < 10 then [digitOfNat n]
    else natToDigits f (n / 10) ++ [digitOfNat (n % 10)]

/-- Decimal rendering of a natural number (Python `str` of a non-negative
`int`). -/
def natToString (n : Nat) : String := ⟨natToDigits (n + 1) n⟩

/-- Decimal rendering of an integer (Python `str(int)`). -/
def intToString (i : Int) : String :=
  if i < 0 then "-" ++ natToString i.natAbs else natToString i.toNat

/-! ## `str.replace('UPDATE-', '')` -/

/-- The pattern removed by the source's `str.replace('UPDATE-', '')`. -/
def updPattern : List Char := ['U', 'P', 'D', 'A', 'T', 'E', '-']

/-- Remove every (non-overlapping, leftmost-first) occurrence of
`updPattern`, as Python's `str.replace('UPDATE-', '')` does.  The first
argument is fuel; fuel `≥` the list length is enough. -/
def stripAux : Nat → List Char → List Char
  | 0, _ => []
  | _ + 1, [] => []
  | f + 1, c :: cs =>
    if updPattern.isPrefixOf (c :: cs) then stripAux f ((c :: cs).drop updPattern.length)
    else c :: stripAux f cs

/-- `s.replace('UPDATE-', '')` on a Python string. -/
def pyStripUpdate (s : String) : String := ⟨stripAux s.data.length s.data⟩

/-! ## `str.isnumeric`, `pd.to_numeric` -/

/-- Python `str.isnumeric()` (ASCII): non-empty and all decimal digits. -/
def pyIsNumeric (s : String) : Bool := !s.data.isEmpty && s.data.all Char.isDigit

/-- Value of a list of decimal digits (most significant first). -/
def digitsVal (cs : List Char) : Nat := cs.foldl (fun a c => 10 * a + (c.toNat - 48)) 0

/-- Unsigned part of `pd.to_numeric`: decimal digits with at most one
decimal point, at least one digit in total. -/
def parseUnsigned (cs : List Char) : Option ℚ :=
  let intPart := cs.takeWhile (fun c => c != '.')
  match cs.dropWhile (fun c => c != '.') with
  | [] =>
    if !cs.isEmpty && cs.all Char.isDigit then some (digitsVal cs : ℚ) else none
  | _ :: fracPart =>
    if intPart.all Char.isDigit && fracPart.all Char.isDigit
        && (!intPart.isEmpty || !fracPart.isEmpty) && !fracPart.contains '.'
    then some ((digitsVal intPart : ℚ) + (digitsVal fracPart : ℚ) / (10 : ℚ) ^ fracPart.length)
    else none

/-- `pd.to_numeric(cell, errors='coerce')` on one cell: `none` is the NaN
that `.dropna()` subsequently removes. -/
def pyToNumeric (s : String) : Option ℚ :=
  match s.data with
  | '-' :: t => (parseUnsigned t).map (fun q => -q)
  | '+' :: t => parseUnsigned t
  | cs => parseUnsigned cs

/-- `Series.max()` over a list of parsed values (the source guards the
call so the list is non-empty; `0` is a don't-care default). -/
def qMax : List ℚ → ℚ
  | [] => 0
  | [q] => q
  | q :: qs => max q (qMax qs)

/-- Python `int(...)` on a (rational-modelled) float: truncation toward
zero, i.e. `Int.tdiv` of numerator by denominator. -/
def pyInt (q : ℚ) : Int := q.num.tdiv q.den

/-! ## The ID allocator of `display_add_update_form` (lines 116-128) -/

/-- The allocator inlined in `display_add_update_form`:

```python
if st.session_state.df.empty or st.session_state.df['ID'].str.replace('UPDATE-', '').str.isnumeric().sum() == 0:
     new_id_num = 1001
else:
     numeric_ids = pd.to_numeric(st.session_state.df['ID'].str.replace('UPDATE-', ''), errors='coerce').dropna()
     if numeric_ids.empty:
         new_id_num = 1001
     else:
         last_id_num = int(numeric_ids.max())
         new_id_num = last_id_num + 1
```
-/
def nextIdNum (store : List Record) : Int :=
  if store.isEmpty || store.all (fun r => !pyIsNumeric (pyStripUpdate r.id)) then 1001
  else if (store.filterMap (fun r => pyToNumeric (pyStripUpdate r.id))).isEmpty then 1001
  else pyInt (qMax (store.filterMap (fun r => pyToNumeric (pyStripUpdate r.id)))) + 1

/-- The id the form assigns: `f"UPDATE-{new_id_num}"`. -/
def newUpdateId (store : List Record) : String := "UPDATE-" ++ intToString (nextIdNum store)

/-! ## CSV importer `display_csv_uploader` (lines 34-84) -/

/-- A row of the uploaded CSV as `pd.read_csv` + `astype(str)` deliver it:
all six cells as raw strings (`Date Logged` not yet parsed). -/
structure RawRow where
  id : String
  category : String
  update : String
  status : String
  priority : String
  date_logged : String
deriving DecidableEq, Repr

/-- The uploaded DataFrame: its column names and its rows.  `rows` carry the
values of the six required columns; extra columns are irrelevant to the
source logic and omitted. -/
structure UploadedDf where
  cols : List String
  rows : List RawRow
deriving DecidableEq, Repr

/-- `expected_columns` of the source (line 47). -/
def requiredCols : List String :=
  ["ID", "Category", "Update", "Status", "Priority", "Date Logged"]

/-- Outcome reported by one run of the uploader. -/
inductive ImportOutcome where
  /-- The `st.error` for a missing required column (lines 52-55). -/
  | schemaError : ImportOutcome
  /-- `pd.to_datetime` raised and the generic handler on lines 83-84 showed
  the error; in the spec's taxonomy this is the `FormatError` class. -/
  | formatError : ImportOutcome
  /-- Empty store: the whole file became the store (lines 62-66). -/
  | loaded : ImportOutcome
  /-- Non-empty store and `num_new > 0`: merge happened (lines 77-80). -/
  | merged : ImportOutcome
  /-- Non-empty store and `num_new == 0`: nothing happened, nothing shown. -/
  | noNew : ImportOutcome
deriving DecidableEq, Repr

/-- Result of one run of the uploader: the new store plus what was shown to
the user.  `reportedImported` is the count interpolated into the
`st.success` message, when one is shown.  `reportedDuplicates` is the
duplicate count shown to the user: the source computes `num_duplicates`
(line 74) but never passes it to any `st.*` call, so it is always `none`. -/
structure ImportResult where
  store : List Record
  reportedImported : Option Nat
  reportedDuplicates : Option Nat
  outcome : ImportOutcome
deriving DecidableEq, Repr

/-- One CSV row after `pd.to_datetime` on its `Date Logged` cell. -/
def parseRow (pd_to_datetime : String → Option Int) (r : RawRow) : Option Record :=
  (pd_to_datetime r.date_logged).map fun d =>
    { id := r.id, category := r.category, update := r.update,
      status := r.status, priority := r.priority, date_logged := d }

/-- `pd.to_datetime(uploaded_df["Date Logged"])` (line 59): converts the
whole column, raising (= `none`) if any cell fails. -/
def parseRows (pd_to_datetime : String → Option Int) : List RawRow → Option (List Record)
  | [] => some []
  | r :: rs =>
    match parseRow pd_to_datetime r, parseRows pd_to_datetime rs with
    | some rec, some recs => some (rec :: recs)
    | _, _ => none

/-- `display_csv_uploader`, from the point where the file has been read
into `uploaded_df`:

* missing required column → error message, `return`, store untouched;
* `pd.to_datetime` failure → caught by `except`, store untouched;
* empty store → the parsed rows become the store verbatim;
* non-empty store → rows whose `ID` is in `existing_ids` are dropped, the
  rest appended via `pd.concat`; `st.success` shows `num_new` only when
  `num_new > 0`; `num_duplicates` is computed but never displayed. -/
def display_csv_uploader (pd_to_datetime : String → Option Int)
    (store : List Record) (df : UploadedDf) : ImportResult :=
  if !requiredCols.all (fun c => df.cols.contains c) then
    { store := store, reportedImported := none, reportedDuplicates := none,
      outcome := .schemaError }
  else
    match parseRows pd_to_datetime df.rows with
    | none =>
      { store := store, reportedImported := none, reportedDuplicates := none,
        outcome := .formatError }
    | some recs =>
      if store.isEmpty then
        { store := recs, reportedImported := some recs.length,
          reportedDuplicates := none, outcome := .loaded }
      else
        let existing_ids := storeIds store
        let new_tickets := recs.filter (fun r => !existing_ids.contains r.id)
        let num_new := new_tickets.length
        -- num_duplicates := recs.length - num_new  (line 74: computed, never shown)
        if 0 < num_new then
          { store := store ++ new_tickets, reportedImported := some num_new,
            reportedDuplicates := none, outcome := .merged }
        else
          { store := store, reportedImported := none,
            reportedDuplicates := none, outcome := .noNew }

/-! ## Add-update form `display_add_update_form` (lines 87-142) -/

/-- The form handler on submit.  `category_selection` is the selectbox
value, `custom_category` the text field (empty when not shown),
`update_description` the text area, `priority` the priority selectbox,
`today` the value of `pd.to_datetime(datetime.date.today())`.

An empty description or an unresolved `Custom` category only warns and
leaves the store alone; otherwise the new record is prepended. -/
def display_add_update_form (today : Int)
    (category_selection custom_category update_description priority : String)
    (store : List Record) : List Record :=
  if update_description = "" then store
  else
    let final_category :=
      if category_selection = "Custom" ∧ custom_category ≠ "" then custom_category
      else category_selection
    if final_category = "Custom" then store
    else
      { id := newUpdateId store, category := final_category,
        update := update_description, status := "Not Started",
        priority := priority, date_logged := today } :: store

/-! ## Editable grid and reconciliation, `display_existing_updates` (lines 145-181) -/

/-- One row's worth of user edits in `st.data_editor`: the grid only lets
the user change the `Update`, `Status` and `Priority` cells (`ID`,
`Category` and `Date Logged` are configured `disabled`); `none` means the
cell was left alone. -/
structure RowEdit where
  update : Option String
  status : Option String
  priority : Option String
deriving DecidableEq, Repr

/-- Applying one row's edits: enabled cells take the edited value,
disabled cells keep the stored value. -/
def applyRowEdit (r : Record) (e : RowEdit) : Record :=
  { r with update := e.update.getD r.update, status := e.status.getD r.status,
           priority := e.priority.getD r.priority }

/-- The snapshot `st.data_editor` returns: the displayed rows with the
user's cell edits applied (row count is fixed: the editor is not opened
with `num_rows="dynamic"`, so rows can be neither added nor deleted). -/
def dataEditor : List Record → List RowEdit → List Record
  | [], _ => []
  | s, [] => s
  | r :: rs, e :: es => applyRowEdit r e :: dataEditor rs es

/-- `display_existing_updates` from the session store and the user's grid
edits: for an empty store the editor is not even rendered; otherwise the
edited snapshot replaces the store iff it differs from it
(`if not st.session_state.df.equals(edited_df)`), and the returned flag
records whether `st.rerun()` was triggered ("store changed"). -/
def display_existing_updates (store : List Record) (edits : List RowEdit) :
    List Record × Bool :=
  if store.isEmpty then (store, false)
  else
    let edited := dataEditor store edits
    if store = edited then (store, false) else (edited, true)

/-! ## Sequences of user interactions -/

/-- One user interaction that can touch the session store. -/
inductive Op where
  /-- Submitting the add-update form. -/
  | add (today : Int)
      (category_selection custom_category update_description priority : String) : Op
  /-- Uploading a CSV file. -/
  | upload (df : UploadedDf) : Op
  /-- Editing the grid. -/
  | edit (edits : List RowEdit) : Op
deriving Repr

/-- Effect of one interaction on the session store. -/
def execOp (pd_to_datetime : String → Option Int) (store : List Record) :
    Op → List Record
  | .add today cs cc ud p => display_add_update_form today cs cc ud p store
  | .upload df => (display_csv_uploader pd_to_datetime store df).store
  | .edit es => (display_existing_updates store es).1

/-- Effect of a whole session (list of interactions, oldest first) starting
from a given store. -/
def execOps (pd_to_datetime : String → Option Int) (ops : List Op)
    (store : List Record) : List Record :=
  ops.foldl (execOp pd_to_datetime) store

/-! ## The spec's (claimed) ID-allocation algorithm -/

/-- Parse a string as the decimal integer the spec means by "numeric
suffix". -/
def parseIntDigits (s : String) : Option Nat :=
  if pyIsNumeric s then some (digitsVal s.data) else none

/-- Maximum of a list of naturals. -/
def natMax (l : List Nat) : Nat := l.foldr max 0

/-- The allocator exactly as the claim words it: take the numeric suffix of
every id *matching the prefix* `UPDATE-`, parse it as an integer, ignore
ids whose suffix fails to parse; `1001` if no valid suffix exists, else
`max + 1`.  (Stated from the spec's words, to be compared with
`nextIdNum`, which is translated from the source.) -/
def specNextIdNum (store : List Record) : Int :=
  let suffixes := store.filterMap fun r =>
    if updPattern.isPrefixOf r.id.data then parseIntDigits ⟨r.id.data.drop updPattern.length⟩
    else none
  if suffixes.isEmpty then 1001 else (natMax suffixes : Int) + 1

/-! ## Lemmas: decimal digits and rendering -/

theorem digitOfNat_isDigit : ∀ d, d < 10 → (digitOfNat d).isDigit = true := by decide

theorem digitOfNat_toNat : ∀ d, d < 10 → (digitOfNat d).toNat - 48 = d := by decide

theorem digitsVal_append_digit (ds : List Char) (c : Char) :
    digitsVal (ds ++ [c]) = 10 * digitsVal ds + (c.toNat - 48) := by
  simp [digitsVal, List.foldl_append]

theorem natToDigits_ne_nil : ∀ f n, n < f → natToDigits f n ≠ [] := by
  intro f
  induction f with
  | zero => intro n h; omega
  | succ f _ =>
    intro n _
    rw [natToDigits]
    split
    · simp
    · simp

theorem natToDigits_all_digit : ∀ f n, n < f → ∀ c ∈ natToDigits f n, c.isDigit = true := by
  intro f
  induction f with
  | zero => intro n h; omega
  | succ f ih =>
    intro n hn c hc
    rw [natToDigits] at hc
    split at hc
    · simp at hc
      subst hc
      exact digitOfNat_isDigit n (by omega)
    · rename_i h10
      rcases List.mem_append.mp hc with h | h
      · exact ih (n / 10) (by omega) c h
      · simp at h
        subst h
        exact digitOfNat_isDigit (n % 10) (Nat.mod_lt _ (by omega))

theorem digitsVal_natToDigits : ∀ f n, n < f → digitsVal (natToDigits f n) = n := by
  intro f
  induction f with
  | zero => intro n h; omega
  | succ f ih =>
    intro n hn
    rw [natToDigits]
    split
    · rename_i h10
      show digitsVal [digitOfNat n] = n
      simp [digitsVal, digitOfNat_toNat n h10]
    · rename_i h10
      rw [digitsVal_append_digit, ih (n / 10) (by omega),
        digitOfNat_toNat (n % 10) (Nat.mod_lt _ (by omega))]
      omega

theorem natToString_data_ne_nil (n : Nat) : (natToString n).data ≠ [] :=
  natToDigits_ne_nil (n + 1) n (by omega)

theorem natToString_all_digit (n : Nat) : ∀ c ∈ (natToString n).data, c.isDigit = true :=
  natToDigits_all_digit (n + 1) n (by omega)

theorem digitsVal_natToString (n : Nat) : digitsVal (natToString n).data = n :=
  digitsVal_natToDigits (n + 1) n (by omega)

theorem intToString_of_nonneg (i : Int) (h : 0 ≤ i) : intToString i = natToString i.toNat := by
  rw [intToString, if_neg (by omega)]

/-! ## Lemmas: `str.replace('UPDATE-', '')` -/

theorem eq_U_of_isPrefixOf (c : Char) (cs : List Char)
    (h : updPattern.isPrefixOf (c :: cs) = true) : c = 'U' := by
  rw [updPattern, List.isPrefixOf] at h
  have h1 : ('U' == c) = true := (Bool.and_eq_true _ _).mp h |>.1
  exact (beq_iff_eq.mp h1).symm

theorem stripAux_of_not_mem_U :
    ∀ f (cs : List Char), cs.length ≤ f → 'U' ∉ cs → stripAux f cs = cs := by
  intro f
  induction f with
  | zero =>
    intro cs hf _
    have hnil : cs = [] := List.length_eq_zero.mp (by omega)
    subst hnil
    rfl
  | succ f ih =>
    intro cs hf hU
    match cs with
    | [] => rfl
    | c :: cs' =>
      rw [stripAux]
      have hcU : c ≠ 'U' := fun h => hU (h ▸ List.mem_cons_self c cs')
      rw [if_neg (fun h => hcU (eq_U_of_isPrefixOf c cs' h))]
      rw [ih cs' (by simp at hf; omega) (fun h => hU (List.mem_cons_of_mem c h))]

theorem isDigit_ne_U (c : Char) (h : c.isDigit = true) : c ≠ 'U' := by
  intro hc
  subst hc
  simp [Char.isDigit] at h

theorem updPattern_isPrefixOf_append (x : List Char) :
    updPattern.isPrefixOf (updPattern ++ x) = true := by
  simp [updPattern, List.isPrefixOf]

theorem pyStripUpdate_update_append (s : String)
    (h : ∀ c ∈ s.data, c.isDigit = true) : pyStripUpdate ("UPDATE-" ++ s) = s := by
  have hdata : ("UPDATE-" ++ s).data = updPattern ++ s.data := by
    rw [String.data_append]; rfl
  have hU : 'U' ∉ s.data := fun hm => isDigit_ne_U 'U' (h 'U' hm) rfl
  rw [pyStripUpdate, hdata]
  have hlen : (updPattern ++ s.data).length = s.data.length + 7 := by
    simp [updPattern]
  rw [hlen]
  have hcons : updPattern ++ s.data = 'U' :: ('P' :: 'D' :: 'A' :: 'T' :: 'E' :: '-' :: s.data) := rfl
  conv in stripAux _ _ => rw [hcons]
  rw [show s.data.length + 7 = (s.data.length + 6) + 1 from rfl, stripAux]
  rw [← hcons, if_pos (updPattern_isPrefixOf_append s.data)]
  have hdrop : (updPattern ++ s.data).drop updPattern.length = s.data := by
    rw [hcons]; rfl
  rw [hdrop, stripAux_of_not_mem_U _ _ (by omega) hU]

/-! ## Lemmas: `isnumeric` / `to_numeric` on digit strings -/

theorem pyIsNumeric_iff (s : String) :
    pyIsNumeric s = true ↔ s.data ≠ [] ∧ ∀ c ∈ s.data, c.isDigit = true := by
  rw [pyIsNumeric]
  simp [List.isEmpty_iff, List.all_eq_true]

theorem pyIsNumeric_natToString (n : Nat) : pyIsNumeric (natToString n) = true :=
  (pyIsNumeric_iff _).mpr ⟨natToString_data_ne_nil n, natToString_all_digit n⟩

theorem isDigit_ne_dot (c : Char) (h : c.isDigit = true) : (c != '.') = true := by
  simp only [bne_iff_ne, ne_eq]
  intro hc
  subst hc
  simp [Char.isDigit] at h

theorem parseUnsigned_digits (cs : List Char) (h1 : cs ≠ [])
    (h2 : ∀ c ∈ cs, c.isDigit = true) :
    parseUnsigned cs = some (digitsVal cs : ℚ) := by
  have hdrop : cs.dropWhile (fun c => c != '.') = [] :=
    List.dropWhile_eq_nil_iff.mpr (fun c hc => isDigit_ne_dot c (h2 c hc))
  have hcond : (!cs.isEmpty && cs.all Char.isDigit) = true := by
    rw [Bool.and_eq_true]
    refine ⟨by simp [List.isEmpty_iff, h1], ?_⟩
    rw [List.all_eq_true]
    exact h2
  rw [parseUnsigned]
  simp only [hdrop, hcond]
  rfl

theorem pyToNumeric_digits (s : String) (h1 : s.data ≠ [])
    (h2 : ∀ c ∈ s.data, c.isDigit = true) :
    pyToNumeric s = some (digitsVal s.data : ℚ) := by
  rw [pyToNumeric]
  split
  · rename_i t heq
    exfalso
    have : '-' ∈ s.data := heq ▸ List.mem_cons_self _ _
    have := h2 '-' this
    simp [Char.isDigit] at this
  · rename_i t heq
    exfalso
    have : '+' ∈ s.data := heq ▸ List.mem_cons_self _ _
    have := h2 '+' this
    simp [Char.isDigit] at this
  · exact parseUnsigned_digits s.data h1 h2

theorem pyToNumeric_of_isNumeric (s : String) (h : pyIsNumeric s = true) :
    pyToNumeric s = some (digitsVal s.data : ℚ) := by
  rcases (pyIsNumeric_iff s).mp h with ⟨h1, h2⟩
  exact pyToNumeric_digits s h1 h2

/-! ## Lemmas: `.max()` and `int(...)` -/

theorem le_qMax : ∀ (l : List ℚ), ∀ q ∈ l, q ≤ qMax l := by
  intro l
  induction l with
  | nil => intro q hq; simp at hq
  | cons a t ih =>
    intro q hq
    match t with
    | [] =>
      simp at hq
      subst hq
      rfl
    | b :: t' =>
      rw [show qMax (a :: b :: t') = max a (qMax (b :: t')) from rfl]
      rcases List.mem_cons.mp hq with h | h
      · subst h; exact le_max_left _ _
      · exact le_trans (ih q h) (le_max_right _ _)

theorem pyInt_eq_floor (q : ℚ) (h : 0 ≤ q) : pyInt q = ⌊q⌋ := by
  rw [pyInt, Int.tdiv_eq_ediv (Rat.num_nonneg.mpr h) (by positivity), Rat.floor_def]

theorem pyInt_le (q : ℚ) (h : 0 ≤ q) : (pyInt q : ℚ) ≤ q := by
  rw [pyInt_eq_floor q h]
  exact Int.floor_le q

theorem lt_pyInt_add_one (q : ℚ) (h : 0 ≤ q) : q < (pyInt q : ℚ) + 1 := by
  rw [pyInt_eq_floor q h]
  exact Int.lt_floor_add_one q

theorem pyInt_nonneg (q : ℚ) (h : 0 ≤ q) : 0 ≤ pyInt q := by
  rw [pyInt_eq_floor q h]
  exact Int.floor_nonneg.mpr h

theorem pyInt_natCast (n : Nat) : pyInt (n : ℚ) = (n : Int) := by
  rw [pyInt_eq_floor _ (by positivity)]
  exact Int.floor_natCast n

/-! ## Lemmas: the ID allocator -/

theorem nextIdNum_pos (store : List Record) : 1 ≤ nextIdNum store := by
  rw [nextIdNum]
  split
  · omega
  · rename_i hcond
    split
    · omega
    · rename_i hne
      have hex : ∃ r ∈ store, pyIsNumeric (pyStripUpdate r.id) = true := by
        by_contra hno
        push_neg at hno
        apply hcond
        rw [Bool.or_eq_true]
        right
        rw [List.all_eq_true]
        intro r hr
        rw [Bool.not_eq_true']
        exact Bool.eq_false_iff.mpr (hno r hr)
      rcases hex with ⟨r, hr, hnum⟩
      have hsome := pyToNumeric_of_isNumeric _ hnum
      have hmem : ((digitsVal (pyStripUpdate r.id).data : ℚ)) ∈
          store.filterMap (fun r => pyToNumeric (pyStripUpdate r.id)) :=
        List.mem_filterMap.mpr ⟨r, hr, hsome⟩
      have h0 : (0 : ℚ) ≤ qMax (store.filterMap (fun r => pyToNumeric (pyStripUpdate r.id))) :=
        le_trans (by positivity) (le_qMax _ _ hmem)
      have := pyInt_nonneg _ h0
      omega

theorem strip_newUpdateId (store : List Record) :
    pyStripUpdate (newUpdateId store) = natToString (nextIdNum store).toNat := by
  rw [newUpdateId, intToString_of_nonneg _ (by have := nextIdNum_pos store; omega)]
  exact pyStripUpdate_update_append _ (natToString_all_digit _)

theorem newUpdateId_not_mem (store : List Record) :
    ∀ r ∈ store, r.id ≠ newUpdateId store := by
  intro r hr heq
  have hpos : 1 ≤ nextIdNum store := nextIdNum_pos store
  have hstrip : pyStripUpdate r.id = natToString (nextIdNum store).toNat := by
    rw [heq]; exact strip_newUpdateId store
  have hnum : pyIsNumeric (pyStripUpdate r.id) = true := by
    rw [hstrip]; exact pyIsNumeric_natToString _
  have htoNum : pyToNumeric (pyStripUpdate r.id) = some (((nextIdNum store).toNat : ℚ)) := by
    rw [hstrip, pyToNumeric_of_isNumeric _ (pyIsNumeric_natToString _), digitsVal_natToString]
  by_cases hemp : (store.isEmpty || store.all (fun r => !pyIsNumeric (pyStripUpdate r.id))) = true
  · rcases Bool.or_eq_true _ _ |>.mp hemp with h | h
    · rw [List.isEmpty_iff.mp h] at hr
      exact absurd hr (List.not_mem_nil r)
    · have := List.all_eq_true.mp h r hr
      rw [Bool.not_eq_true'] at this
      rw [hnum] at this
      exact Bool.noConfusion this
  · have hmem : (((nextIdNum store).toNat : ℚ)) ∈
        store.filterMap (fun r => pyToNumeric (pyStripUpdate r.id)) :=
      List.mem_filterMap.mpr ⟨r, hr, htoNum⟩
    by_cases hNe : (store.filterMap (fun r => pyToNumeric (pyStripUpdate r.id))).isEmpty = true
    · rw [List.isEmpty_iff.mp hNe] at hmem
      exact absurd hmem (List.not_mem_nil _)
    · have hval : nextIdNum store =
          pyInt (qMax (store.filterMap (fun r => pyToNumeric (pyStripUpdate r.id)))) + 1 := by
        rw [nextIdNum, if_neg hemp, if_neg hNe]
      set M := qMax (store.filterMap (fun r => pyToNumeric (pyStripUpdate r.id))) with hM
      have hle : (((nextIdNum store).toNat : ℚ)) ≤ M := le_qMax _ _ hmem
      have h0 : (0 : ℚ) ≤ M := le_trans (by positivity) hle
      have hlt : M < (pyInt M : ℚ) + 1 := lt_pyInt_add_one M h0
      have h1 : ((nextIdNum store).toNat : Int) = nextIdNum store :=
        Int.toNat_of_nonneg (by omega)
      have hcast : (((nextIdNum store).toNat : ℚ)) = ((pyInt M : ℚ) + 1) := by
        have h2 : ((nextIdNum store : Int) : ℚ) = (pyInt M : ℚ) + 1 := by
          rw [hval]
          push_cast
          ring
        rw [← h2]
        exact_mod_cast congrArg (fun z : Int => (z : ℚ)) h1
      rw [hcast] at hle
      linarith

/-! ## Lemmas: parsing the uploaded rows -/

theorem contains_iff_mem_str (l : List String) (a : String) : l.contains a = true ↔ a ∈ l := by
  simp

theorem parseRow_id (pd : String → Option Int) (r : RawRow) (rec : Record)
    (h : parseRow pd r = some rec) : rec.id = r.id := by
  rw [parseRow] at h
  rcases Option.map_eq_some'.mp h with ⟨d, -, hrec⟩
  rw [← hrec]

theorem parseRows_map_id (pd : String → Option Int) :
    ∀ (rows : List RawRow) (recs : List Record), parseRows pd rows = some recs →
      recs.map Record.id = rows.map RawRow.id := by
  intro rows
  induction rows with
  | nil =>
    intro recs h
    rw [parseRows] at h
    injection h with h
    rw [← h]
    rfl
  | cons r rs ih =>
    intro recs h
    rw [parseRows] at h
    cases hr : parseRow pd r with
    | none => rw [hr] at h; exact absurd h (by simp)
    | some rec =>
      cases hrs : parseRows pd rs with
      | none => rw [hr, hrs] at h; exact absurd h (by simp)
      | some recs' =>
        rw [hr, hrs] at h
        injection h with h
        rw [← h, List.map_cons, List.map_cons, parseRow_id pd r rec hr, ih recs' hrs]

theorem parseRows_length (pd : String → Option Int) (rows : List RawRow)
    (recs : List Record) (h : parseRows pd rows = some recs) :
    recs.length = rows.length := by
  have := congrArg List.length (parseRows_map_id pd rows recs h)
  simpa using this

theorem parseRows_of_fail (pd : String → Option Int) :
    ∀ (rows : List RawRow), (∃ r ∈ rows, pd r.date_logged = none) →
      parseRows pd rows = none := by
  intro rows
  induction rows with
  | nil => intro h; rcases h with ⟨r, hr, -⟩; exact absurd hr (List.not_mem_nil r)
  | cons r rs ih =>
    intro h
    rcases h with ⟨r', hr', hfail⟩
    rcases List.mem_cons.mp hr' with h1 | h1
    · subst h1
      have : parseRow pd r' = none := by
        rw [parseRow, hfail]
        rfl
      rw [parseRows, this]
    · rw [parseRows, ih ⟨r', h1, hfail⟩]
      cases parseRow pd r <;> rfl

/-! ## Lemmas: the shapes of the uploader's result -/

theorem uploader_schemaError (pd : String → Option Int) (store : List Record)
    (df : UploadedDf) (h : requiredCols.all (fun c => df.cols.contains c) = false) :
    display_csv_uploader pd store df =
      ⟨store, none, none, .schemaError⟩ := by
  rw [display_csv_uploader, if_pos (by rw [h]; rfl)]

theorem uploader_formatError (pd : String → Option Int) (store : List Record)
    (df : UploadedDf) (h : requiredCols.all (fun c => df.cols.contains c) = true)
    (h2 : parseRows pd df.rows = none) :
    display_csv_uploader pd store df =
      ⟨store, none, none, .formatError⟩ := by
  rw [display_csv_uploader, if_neg (by rw [h]; simp)]
  rw [h2]

theorem uploader_loaded (pd : String → Option Int) (df : UploadedDf)
    (recs : List Record) (h : requiredCols.all (fun c => df.cols.contains c) = true)
    (h2 : parseRows pd df.rows = some recs) :
    display_csv_uploader pd [] df =
      ⟨recs, some recs.length, none, .loaded⟩ := by
  rw [display_csv_uploader, if_neg (by rw [h]; simp)]
  rw [h2]
  rfl

theorem uploader_merge (pd : String → Option Int) (store : List Record)
    (df : UploadedDf) (recs : List Record) (hne : store ≠ [])
    (h : requiredCols.all (fun c => df.cols.contains c) = true)
    (h2 : parseRows pd df.rows = some recs) :
    display_csv_uploader pd store df =
      (if 0 < (recs.filter (fun r => !(storeIds store).contains r.id)).length then
        ⟨store ++ recs.filter (fun r => !(storeIds store).contains r.id),
         some (recs.filter (fun r => !(storeIds store).contains r.id)).length,
         none, .merged⟩
      else ⟨store, none, none, .noNew⟩) := by
  rw [display_csv_uploader, if_neg (by rw [h]; simp), h2]
  dsimp only
  rw [if_neg (by rw [List.isEmpty_iff]; exact hne)]

/-! ## Lemmas: the editable grid -/

theorem dataEditor_map_eq {α : Type} (f : Record → α)
    (hf : ∀ r e, f (applyRowEdit r e) = f r) :
    ∀ (s : List Record) (es : List RowEdit), (dataEditor s es).map f = s.map f := by
  intro s
  induction s with
  | nil => intro es; cases es <;> rfl
  | cons r rs ih =>
    intro es
    cases es with
    | nil => rfl
    | cons e es' =>
      show f (applyRowEdit r e) :: (dataEditor rs es').map f = f r :: rs.map f
      rw [hf, ih es']

theorem applyRowEdit_id (r : Record) (e : RowEdit) : (applyRowEdit r e).id = r.id := rfl

theorem applyRowEdit_category (r : Record) (e : RowEdit) :
    (applyRowEdit r e).category = r.category := rfl

theorem applyRowEdit_date (r : Record) (e : RowEdit) :
    (applyRowEdit r e).date_logged = r.date_logged := rfl

theorem existing_updates_fst (store : List Record) (edits : List RowEdit) :
    (display_existing_updates store edits).1 = store ∨
    (display_existing_updates store edits).1 = dataEditor store edits := by
  rw [display_existing_updates]
  split
  · exact Or.inl rfl
  · dsimp only
    split
    · exact Or.inl rfl
    · exact Or.inr rfl

theorem existing_updates_map_eq {α : Type} (f : Record → α)
    (hf : ∀ r e, f (applyRowEdit r e) = f r) (store : List Record)
    (edits : List RowEdit) :
    (display_existing_updates store edits).1.map f = store.map f := by
  rcases existing_updates_fst store edits with h | h
  · rw [h]
  · rw [h]
    exact dataEditor_map_eq f hf store edits

/-! ## Lemmas: each interaction preserves ID uniqueness -/

theorem add_form_nodup (today : Int) (cs cc ud p : String) (store : List Record)
    (h : (storeIds store).Nodup) :
    (storeIds (display_add_update_form today cs cc ud p store)).Nodup := by
  rw [display_add_update_form]
  split
  · exact h
  · dsimp only
    have key : (newUpdateId store :: storeIds store).Nodup := by
      rw [List.nodup_cons]
      refine ⟨?_, h⟩
      intro hmem
      rcases List.mem_map.mp hmem with ⟨r, hr, hid⟩
      exact newUpdateId_not_mem store r hr hid
    split <;> split
    · exact h
    · exact key
    · exact h
    · exact key

theorem uploader_nodup (pd : String → Option Int) (store : List Record)
    (df : UploadedDf) (h : (storeIds store).Nodup)
    (hrows : (df.rows.map RawRow.id).Nodup) :
    (storeIds (display_csv_uploader pd store df).store).Nodup := by
  by_cases hcols : requiredCols.all (fun c => df.cols.contains c) = true
  case neg =>
    rw [uploader_schemaError pd store df (Bool.eq_false_iff.mpr hcols)]
    exact h
  cases hpr : parseRows pd df.rows with
  | none =>
    rw [uploader_formatError pd store df hcols hpr]
    exact h
  | some recs =>
    have hrid : recs.map Record.id = df.rows.map RawRow.id := parseRows_map_id pd _ _ hpr
    by_cases hse : store = []
    · subst hse
      rw [uploader_loaded pd df recs hcols hpr]
      show (recs.map Record.id).Nodup
      rw [hrid]
      exact hrows
    · rw [uploader_merge pd store df recs hse hcols hpr]
      split
      · show (storeIds (store ++ recs.filter (fun r => !(storeIds store).contains r.id))).Nodup
        rw [storeIds, List.map_append, List.nodup_append]
        refine ⟨h, ?_, ?_⟩
        · exact List.Nodup.sublist ((List.filter_sublist recs).map Record.id)
            (hrid ▸ hrows)
        · intro a ha hafilter
          rcases List.mem_map.mp hafilter with ⟨rrec, hmemf, hideq⟩
          rcases List.mem_filter.mp hmemf with ⟨-, hpred⟩
          rw [Bool.not_eq_true'] at hpred
          have hin : rrec.id ∈ storeIds store := hideq ▸ ha
          rw [← contains_iff_mem_str] at hin
          rw [hpred] at hin
          exact Bool.noConfusion hin
      · exact h

theorem edit_nodup (store : List Record) (edits : List RowEdit)
    (h : (storeIds store).Nodup) :
    (storeIds (display_existing_updates store edits).1).Nodup := by
  have : storeIds (display_existing_updates store edits).1 = storeIds store :=
    existing_updates_map_eq Record.id applyRowEdit_id store edits
  rw [this]
  exact h

/-- An interaction's uploaded file (if it is an upload) has no two rows
with the same `ID`. -/
def importedIdsNodup : Op → Prop
  | .upload df => (df.rows.map RawRow.id).Nodup
  | _ => True

theorem execOp_nodup (pd : String → Option Int) (store : List Record) (op : Op)
    (h : (storeIds store).Nodup) (hop : importedIdsNodup op) :
    (storeIds (execOp pd store op)).Nodup := by
  cases op with
  | add today cs cc ud p => exact add_form_nodup today cs cc ud p store h
  | upload df => exact uploader_nodup pd store df h hop
  | edit es => exact edit_nodup store es h

theorem execOps_nodup (pd : String → Option Int) :
    ∀ (ops : List Op) (store : List Record), (storeIds store).Nodup →
      (∀ op ∈ ops, importedIdsNodup op) → (storeIds (execOps pd ops store)).Nodup := by
  intro ops
  induction ops with
  | nil => intro store h _; exact h
  | cons op ops ih =>
    intro store h hops
    show (storeIds (execOps pd ops (execOp pd store op))).Nodup
    exact ih (execOp pd store op)
      (execOp_nodup pd store op h (hops op (List.mem_cons_self op ops)))
      (fun o ho => hops o (List.mem_cons_of_mem op ho))

/-- The claim **C1** as stated is false: starting from the empty store, a
single CSV upload whose file itself contains its `ID` twice leaves the
session store with a duplicated id (the empty-store path loads the file
verbatim, and the duplicate check of the merge path only compares against
*existing* ids, never within the file). -/
theorem claim_C1_counterexample :
    ¬ (storeIds (execOps (fun _ => some 0)
        [Op.upload ⟨requiredCols,
          [⟨"X-1", "c", "u", "s", "p", "d"⟩, ⟨"X-1", "c2", "u2", "s2", "p2", "d"⟩]⟩]
        [])).Nodup := by
  decide

/-- **C1** (amended): for every sequence of operations (form add, CSV
upload into an empty or non-empty store, edit reconciliation) *in which
every uploaded CSV is itself free of internal `ID` duplicates*, the store
never contains two records with equal `id`. -/
theorem claim_C1_unique_ids_amended (pd : String → Option Int) (ops : List Op)
    (h : ∀ op ∈ ops, importedIdsNodup op) :
    (storeIds (execOps pd ops [])).Nodup :=
  execOps_nodup pd ops [] List.nodup_nil h

/-- A session with one of each interaction (all uploads internally
duplicate-free) really is covered by the amended **C1**. -/
theorem claim_C1_unique_ids_amended_witness :
    (storeIds (execOps (fun _ => some 0)
      [Op.add 0 "Operations Update" "" "Fix login bug" "High",
       Op.upload ⟨requiredCols, [⟨"UPDATE-1001", "c", "u", "s", "p", "d"⟩,
                                 ⟨"T-7", "c2", "u2", "s2", "p2", "d"⟩]⟩,
       Op.edit [{ update := some "done", status := some "Completed", priority := none }]]
      [])).Nodup := by
  apply claim_C1_unique_ids_amended
  intro op hop
  simp only [List.mem_cons, List.not_mem_nil, or_false] at hop
  rcases hop with rfl | rfl | rfl
  · trivial
  · show (["UPDATE-1001", "T-7"] : List String).Nodup
    decide
  · trivial

/-! ## Claim C2: merge sizes and what is reported -/

theorem length_filter_add_length_filter_not (p : Record → Bool) (l : List Record) :
    (l.filter p).length + (l.filter (fun r => !p r)).length = l.length := by
  induction l with
  | nil => rfl
  | cons a t ih =>
    cases hpa : p a <;> simp [List.filter_cons, hpa] <;> omega

/-- The claim **C2** as stated is false at a concrete merge: a non-empty
store of size `N = 1` receiving a file of `M = 2` rows with `K = 1`
colliding id does end up with `N + (M - K) = 2` records, but the number of
duplicates is never reported: `num_duplicates` is computed on line 74 of
the source and passed to no `st.*` call. -/
theorem claim_C2_counterexample :
    ¬ (((display_csv_uploader (fun _ => some 0)
          [⟨"A-1", "c", "u", "s", "p", 0⟩]
          ⟨requiredCols, [⟨"A-1", "c", "u", "s", "p", "d"⟩,
                          ⟨"B-2", "c", "u", "s", "p", "d"⟩]⟩).store.length = 1 + (2 - 1)) ∧
        ((display_csv_uploader (fun _ => some 0)
          [⟨"A-1", "c", "u", "s", "p", 0⟩]
          ⟨requiredCols, [⟨"A-1", "c", "u", "s", "p", "d"⟩,
                          ⟨"B-2", "c", "u", "s", "p", "d"⟩]⟩).reportedDuplicates = some 1)) := by
  decide

/-- **C2** (amended): a CSV merge into a non-empty store of size `N`
that brings in `M` rows of which `K` have ids already present yields a store
of exactly `N + (M - K)` records; the duplicate count is *not* reported
(it is computed but never displayed), and the count of newly imported
rows is reported exactly when it is positive. -/
theorem claim_C2_merge_counts_amended (pd : String → Option Int) (store : List Record)
    (df : UploadedDf) (recs : List Record) (hne : store ≠ [])
    (hcols : requiredCols.all (fun c => df.cols.contains c) = true)
    (hpr : parseRows pd df.rows = some recs) :
    (display_csv_uploader pd store df).store.length =
      store.length +
        (df.rows.length - (recs.filter (fun r => (storeIds store).contains r.id)).length) ∧
    (display_csv_uploader pd store df).reportedDuplicates = none ∧
    ((recs.filter (fun r => !(storeIds store).contains r.id)).length ≠ 0 →
      (display_csv_uploader pd store df).reportedImported =
        some (recs.filter (fun r => !(storeIds store).contains r.id)).length) ∧
    ((recs.filter (fun r => !(storeIds store).contains r.id)).length = 0 →
      (display_csv_uploader pd store df).reportedImported = none) := by
  have hM : recs.length = df.rows.length := parseRows_length pd df.rows recs hpr
  have hsplit := length_filter_add_length_filter_not
    (fun r => (storeIds store).contains r.id) recs
  rw [uploader_merge pd store df recs hne hcols hpr]
  split
  · rename_i hpos
    refine ⟨?_, rfl, fun _ => rfl, fun h0 => absurd h0 (by omega)⟩
    show (store ++ recs.filter (fun r => !(storeIds store).contains r.id)).length =
      store.length + _
    rw [List.length_append]
    omega
  · rename_i hpos
    refine ⟨?_, rfl, fun hno => absurd hno (by omega), fun _ => rfl⟩
    show store.length = store.length + _
    omega

/-- The amended **C2** at the inputs of the counterexample: the merged
store has two records, the one new row is reported, the duplicate is
not. -/
theorem claim_C2_merge_counts_amended_witness :
    (display_csv_uploader (fun _ => some 0)
        [⟨"A-1", "c", "u", "s", "p", 0⟩]
        ⟨requiredCols, [⟨"A-1", "c", "u", "s", "p", "d"⟩,
                        ⟨"B-2", "c", "u", "s", "p", "d"⟩]⟩).store.length = 1 + (2 - 1) ∧
    (display_csv_uploader (fun _ => some 0)
        [⟨"A-1", "c", "u", "s", "p", 0⟩]
        ⟨requiredCols, [⟨"A-1", "c", "u", "s", "p", "d"⟩,
                        ⟨"B-2", "c", "u", "s", "p", "d"⟩]⟩).reportedDuplicates = none := by
  have h := claim_C2_merge_counts_amended (fun _ => some 0)
    [⟨"A-1", "c", "u", "s", "p", 0⟩]
    ⟨requiredCols, [⟨"A-1", "c", "u", "s", "p", "d"⟩, ⟨"B-2", "c", "u", "s", "p", "d"⟩]⟩
    [⟨"A-1", "c", "u", "s", "p", 0⟩, ⟨"B-2", "c", "u", "s", "p", 0⟩]
    (by decide) (by decide) (by decide)
  refine ⟨?_, h.2.1⟩
  have h1 := h.1
  rw [h1]
  decide

/-! ## Claim C3: the ID-allocation algorithm -/

theorem qMax_mem : ∀ (l : List ℚ), l ≠ [] → qMax l ∈ l := by
  intro l
  induction l with
  | nil => intro h; exact absurd rfl h
  | cons a t ih =>
    intro _
    match t with
    | [] => exact List.mem_singleton.mpr rfl
    | b :: t' =>
      rw [show qMax (a :: b :: t') = max a (qMax (b :: t')) from rfl]
      rcases max_choice a (qMax (b :: t')) with h | h
      · rw [h]; exact List.mem_cons_self _ _
      · rw [h]; exact List.mem_cons_of_mem a (ih (by simp))

theorem parseIntDigits_natToString (n : Nat) : parseIntDigits (natToString n) = some n := by
  rw [parseIntDigits, if_pos (pyIsNumeric_natToString n), digitsVal_natToString]

theorem filterMap_toNumeric_of_wf :
    ∀ (store : List Record), (∀ r ∈ store, ∃ n, r.id = "UPDATE-" ++ natToString n) →
      store.filterMap (fun r => pyToNumeric (pyStripUpdate r.id)) =
        List.map (fun n : Nat => (n : ℚ))
          (store.filterMap (fun r => parseIntDigits (pyStripUpdate r.id))) := by
  intro store
  induction store with
  | nil => intro _; rfl
  | cons r rest ih =>
    intro h
    rcases h r (List.mem_cons_self r rest) with ⟨n, hn⟩
    have hstrip : pyStripUpdate r.id = natToString n := by
      rw [hn]
      exact pyStripUpdate_update_append _ (natToString_all_digit n)
    have h1 : pyToNumeric (pyStripUpdate r.id) = some ((n : ℚ)) := by
      rw [hstrip, pyToNumeric_of_isNumeric _ (pyIsNumeric_natToString n), digitsVal_natToString]
    have h2 : parseIntDigits (pyStripUpdate r.id) = some n := by
      rw [hstrip, parseIntDigits_natToString]
    simp only [List.filterMap_cons, h1, h2, List.map_cons]
    rw [ih (fun r' hr' => h r' (List.mem_cons_of_mem r hr'))]

/-- The claim **C3** as stated is false: the source strips the substring
`UPDATE-` from *anywhere* in the id (`str.replace`, not a prefix match), so
a store whose only id is the bare numeral `"1002"` — which matches no
`UPDATE-` prefix and should per the claim contribute nothing, giving
`UPDATE-1001` — makes the code allocate `UPDATE-1003`. -/
theorem claim_C3_counterexample :
    ¬ (nextIdNum [⟨"1002", "c", "u", "s", "p", 0⟩] =
       specNextIdNum [⟨"1002", "c", "u", "s", "p", 0⟩]) := by
  decide

/-- **C3** (amended): the allocator first removes every occurrence of the
substring `UPDATE-` from each id (rather than matching it as a prefix) and
then works on the remainders: if the store is empty or no remainder is
numeric the next id number is `1001` (ids with non-numeric remainders are
ignored and never cause a failure); every record whose remainder is
numeric has its value strictly below the allocated number; and on a store
of well-formed ids `UPDATE-<digits>` the allocated number is exactly one
record's suffix plus one (the maximal one, by the previous clause). -/
theorem claim_C3_allocator_amended (store : List Record) :
    (store = [] → nextIdNum store = 1001) ∧
    ((∀ r ∈ store, pyIsNumeric (pyStripUpdate r.id) = false) → nextIdNum store = 1001) ∧
    (∀ r ∈ store, pyIsNumeric (pyStripUpdate r.id) = true →
      (digitsVal (pyStripUpdate r.id).data : Int) < nextIdNum store) ∧
    ((∀ r ∈ store, ∃ n : Nat, r.id = "UPDATE-" ++ natToString n) → store ≠ [] →
      ∃ r ∈ store, ∃ n : Nat, r.id = "UPDATE-" ++ natToString n ∧
        nextIdNum store = (n : Int) + 1) := by
  refine ⟨?_, ?_, ?_, ?_⟩
  · intro h
    subst h
    rfl
  · intro h
    rw [nextIdNum, if_pos]
    rw [Bool.or_eq_true]
    right
    rw [List.all_eq_true]
    intro r hr
    rw [Bool.not_eq_true', h r hr]
  · intro r hr hnum
    have hsome := pyToNumeric_of_isNumeric _ hnum
    by_cases hemp : (store.isEmpty ||
        store.all (fun r => !pyIsNumeric (pyStripUpdate r.id))) = true
    · rcases Bool.or_eq_true _ _ |>.mp hemp with h | h
      · rw [List.isEmpty_iff.mp h] at hr
        exact absurd hr (List.not_mem_nil r)
      · have := List.all_eq_true.mp h r hr
        rw [Bool.not_eq_true', hnum] at this
        exact Bool.noConfusion this
    · have hmem : ((digitsVal (pyStripUpdate r.id).data : ℚ)) ∈
          store.filterMap (fun r => pyToNumeric (pyStripUpdate r.id)) :=
        List.mem_filterMap.mpr ⟨r, hr, hsome⟩
      by_cases hNe : (store.filterMap
          (fun r => pyToNumeric (pyStripUpdate r.id))).isEmpty = true
      · rw [List.isEmpty_iff.mp hNe] at hmem
        exact absurd hmem (List.not_mem_nil _)
      · rw [nextIdNum, if_neg hemp, if_neg hNe]
        set M := qMax (store.filterMap (fun r => pyToNumeric (pyStripUpdate r.id))) with hM
        have hle : ((digitsVal (pyStripUpdate r.id).data : ℚ)) ≤ M := le_qMax _ _ hmem
        have h0 : (0 : ℚ) ≤ M := le_trans (by positivity) hle
        have hlt : M < (pyInt M : ℚ) + 1 := lt_pyInt_add_one M h0
        have : ((digitsVal (pyStripUpdate r.id).data : ℚ)) < ((pyInt M + 1 : Int) : ℚ) := by
          push_cast
          linarith
        exact_mod_cast this
  · intro hwf hne
    rcases store with - | ⟨r0, rest⟩
    · exact absurd rfl hne
    rcases hwf r0 (List.mem_cons_self r0 rest) with ⟨n0, hn0⟩
    have hstrip0 : pyStripUpdate r0.id = natToString n0 := by
      rw [hn0]
      exact pyStripUpdate_update_append _ (natToString_all_digit n0)
    have hnum0 : pyIsNumeric (pyStripUpdate r0.id) = true := by
      rw [hstrip0]
      exact pyIsNumeric_natToString n0
    have hemp : ¬ ((r0 :: rest).isEmpty ||
        (r0 :: rest).all (fun r => !pyIsNumeric (pyStripUpdate r.id))) = true := by
      rw [Bool.or_eq_true]
      rintro (h | h)
      · exact Bool.noConfusion h
      · have := List.all_eq_true.mp h r0 (List.mem_cons_self r0 rest)
        rw [Bool.not_eq_true', hnum0] at this
        exact Bool.noConfusion this
    have hfm := filterMap_toNumeric_of_wf (r0 :: rest) hwf
    have hsome0 : pyToNumeric (pyStripUpdate r0.id) = some ((n0 : ℚ)) := by
      rw [hstrip0, pyToNumeric_of_isNumeric _ (pyIsNumeric_natToString n0),
        digitsVal_natToString]
    have hmem0 : ((n0 : ℚ)) ∈ (r0 :: rest).filterMap
        (fun r => pyToNumeric (pyStripUpdate r.id)) :=
      List.mem_filterMap.mpr ⟨r0, List.mem_cons_self r0 rest, hsome0⟩
    have hNe : ¬ ((r0 :: rest).filterMap
        (fun r => pyToNumeric (pyStripUpdate r.id))).isEmpty = true := by
      intro h
      rw [List.isEmpty_iff.mp h] at hmem0
      exact absurd hmem0 (List.not_mem_nil _)
    have hval : nextIdNum (r0 :: rest) =
        pyInt (qMax ((r0 :: rest).filterMap
          (fun r => pyToNumeric (pyStripUpdate r.id)))) + 1 := by
      rw [nextIdNum, if_neg hemp, if_neg hNe]
    have hne2 : (r0 :: rest).filterMap (fun r => pyToNumeric (pyStripUpdate r.id)) ≠ [] := by
      intro h
      rw [h] at hmem0
      exact absurd hmem0 (List.not_mem_nil _)
    have hmax := qMax_mem _ hne2
    rw [List.mem_filterMap] at hmax
    rcases hmax with ⟨rm, hrm, hrmq⟩
    rcases hwf rm hrm with ⟨nm, hnm⟩
    have hstripm : pyStripUpdate rm.id = natToString nm := by
      rw [hnm]
      exact pyStripUpdate_update_append _ (natToString_all_digit nm)
    have hsomem : pyToNumeric (pyStripUpdate rm.id) = some ((nm : ℚ)) := by
      rw [hstripm, pyToNumeric_of_isNumeric _ (pyIsNumeric_natToString nm),
        digitsVal_natToString]
    have hq : qMax ((r0 :: rest).filterMap
        (fun r => pyToNumeric (pyStripUpdate r.id))) = ((nm : ℚ)) := by
      rw [hsomem] at hrmq
      exact (Option.some.injEq _ _ ▸ hrmq : _) |>.symm ▸ rfl
    refine ⟨rm, hrm, nm, hnm, ?_⟩
    rw [hval, hq]
    have : pyInt ((nm : ℚ)) = (nm : Int) := pyInt_natCast nm
    rw [this]

/-- The amended **C3** exercised on concrete stores: empty store and
all-malformed store give `1001`; on the store `[UPDATE-1005]` the
allocated number strictly dominates the suffix and equals that suffix
plus one. -/
theorem claim_C3_allocator_amended_witness :
    nextIdNum [] = 1001 ∧
    nextIdNum [⟨"UPDATE-abc", "c", "u", "s", "p", 0⟩] = 1001 ∧
    ((digitsVal (pyStripUpdate (Record.id ⟨"UPDATE-1005", "c", "u", "s", "p", 0⟩)).data : Int) <
      nextIdNum [⟨"UPDATE-1005", "c", "u", "s", "p", 0⟩]) ∧
    (∃ r ∈ [(⟨"UPDATE-1005", "c", "u", "s", "p", 0⟩ : Record)], ∃ n : Nat,
      r.id = "UPDATE-" ++ natToString n ∧
      nextIdNum [⟨"UPDATE-1005", "c", "u", "s", "p", 0⟩] = (n : Int) + 1) := by
  refine ⟨(claim_C3_allocator_amended []).1 rfl, ?_, ?_, ?_⟩
  · exact (claim_C3_allocator_amended _).2.1 (by decide)
  · exact (claim_C3_allocator_amended _).2.2.1 _ (List.mem_cons_self _ _) (by decide)
  · exact (claim_C3_allocator_amended _).2.2.2
      (by
        intro r hr
        rw [List.mem_singleton] at hr
        subst hr
        exact ⟨1005, by decide⟩)
      (by simp)

/-! ## Claims C4 and C5: the edit reconciler -/

/-- **C4**: for every non-empty store and every snapshot produced by the
grid from the user's edits, the reconciler of `display_existing_updates`
performs no overwrite and signals "no change" (`false`, no rerun) when the
snapshot is field-by-field identical to the store (`DataFrame.equals`),
and replaces the whole store with the snapshot in a single full overwrite
and signals "store changed" (`true`, rerun) when any field differs. -/
theorem claim_C4_reconciler (store : List Record) (edits : List RowEdit)
    (hne : store ≠ []) :
    (dataEditor store edits = store →
      display_existing_updates store edits = (store, false)) ∧
    (dataEditor store edits ≠ store →
      display_existing_updates store edits = (dataEditor store edits, true)) := by
  constructor
  · intro hsame
    rw [display_existing_updates, if_neg (by rw [List.isEmpty_iff]; exact hne)]
    dsimp only
    rw [if_pos hsame.symm]
  · intro hdiff
    rw [display_existing_updates, if_neg (by rw [List.isEmpty_iff]; exact hne)]
    dsimp only
    rw [if_neg (fun h => hdiff h.symm)]

/-- **C4** exercised: on a one-record store, an empty edit (identical
snapshot) changes nothing and signals no change; a status edit overwrites
and signals the change. -/
theorem claim_C4_reconciler_witness :
    display_existing_updates [⟨"UPDATE-1001", "c", "u", "Not Started", "High", 0⟩]
        [{ update := none, status := none, priority := none }] =
      ([⟨"UPDATE-1001", "c", "u", "Not Started", "High", 0⟩], false) ∧
    display_existing_updates [⟨"UPDATE-1001", "c", "u", "Not Started", "High", 0⟩]
        [{ update := none, status := some "Completed", priority := none }] =
      ([⟨"UPDATE-1001", "c", "u", "Completed", "High", 0⟩], true) := by
  constructor
  · exact (claim_C4_reconciler _ _ (by simp)).1 (by decide)
  · have h := (claim_C4_reconciler
      [⟨"UPDATE-1001", "c", "u", "Not Started", "High", 0⟩]
      [{ update := none, status := some "Completed", priority := none }] (by simp)).2
      (by decide)
    rw [h]
    decide

/-- **C5**: whatever the reconciler commits, the immutable columns are
untouched: the committed store has the same `ID`, `Category` and
`Date Logged` columns (same rows, same order) as the current store,
because the grid's edits can only land in the `Update`, `Status` and
`Priority` cells (the other columns are `disabled` in the editor
configuration); the committed store is either the current one or the
edited snapshot. -/
theorem claim_C5_immutable_fields (store : List Record) (edits : List RowEdit) :
    (display_existing_updates store edits).1.map Record.id = store.map Record.id ∧
    (display_existing_updates store edits).1.map Record.category =
      store.map Record.category ∧
    (display_existing_updates store edits).1.map Record.date_logged =
      store.map Record.date_logged ∧
    ((display_existing_updates store edits).1 = store ∨
     (display_existing_updates store edits).1 = dataEditor store edits) :=
  ⟨existing_updates_map_eq Record.id applyRowEdit_id store edits,
   existing_updates_map_eq Record.category applyRowEdit_category store edits,
   existing_updates_map_eq Record.date_logged applyRowEdit_date store edits,
   existing_updates_fst store edits⟩

/-! ## Claims C6 and C7: import error handling -/

/-- **C6**: an uploaded CSV missing at least one of the required columns
`ID, Category, Update, Status, Priority, Date Logged` makes the import
fail on the schema check (the `st.error` + `return` of lines 52-55, the
spec's `SchemaError`): nothing is imported and the store is exactly what
it was, with no success message. -/
theorem claim_C6_schema_error (pd : String → Option Int) (store : List Record)
    (df : UploadedDf) (h : ∃ c ∈ requiredCols, c ∉ df.cols) :
    display_csv_uploader pd store df =
      ⟨store, none, none, .schemaError⟩ := by
  apply uploader_schemaError
  rcases h with ⟨c, hc, hnot⟩
  rw [Bool.eq_false_iff]
  intro hall
  have := List.all_eq_true.mp hall c hc
  rw [contains_iff_mem_str] at this
  exact hnot this

/-- **C6** exercised: a file lacking the `Date Logged` column leaves a
one-record store untouched and reports the schema error. -/
theorem claim_C6_schema_error_witness :
    display_csv_uploader (fun _ => some 0)
        [⟨"UPDATE-1001", "c", "u", "s", "p", 0⟩]
        ⟨["ID", "Category", "Update", "Status", "Priority"],
         [⟨"B-2", "c", "u", "s", "p", "d"⟩]⟩ =
      ⟨[⟨"UPDATE-1001", "c", "u", "s", "p", 0⟩], none, none, .schemaError⟩ :=
  claim_C6_schema_error (fun _ => some 0) _ _
    ⟨"Date Logged", by decide, by decide⟩

/-- **C7**: an uploaded CSV (with the right columns) containing a
`Date Logged` cell that `pd.to_datetime` cannot parse fails as a whole —
the exception propagates to the handler of lines 83-84 (the spec's
`FormatError`) before any state change, so the store is left unchanged and
nothing is reported imported; and, in general, every import is atomic:
either the store is left exactly as it was, or it becomes the old store
plus the parsed rows whose ids were not already present (for an empty
store: the whole file). -/
theorem claim_C7_format_error_atomic (pd : String → Option Int) (store : List Record)
    (df : UploadedDf) :
    (requiredCols.all (fun c => df.cols.contains c) = true →
      (∃ r ∈ df.rows, pd r.date_logged = none) →
      display_csv_uploader pd store df =
        ⟨store, none, none, .formatError⟩) ∧
    ((display_csv_uploader pd store df).store = store ∨
      ∃ recs, parseRows pd df.rows = some recs ∧
        (display_csv_uploader pd store df).store =
          store ++ recs.filter (fun r => !(storeIds store).contains r.id)) := by
  constructor
  · intro hcols hfail
    exact uploader_formatError pd store df hcols (parseRows_of_fail pd df.rows hfail)
  · by_cases hcols : requiredCols.all (fun c => df.cols.contains c) = true
    · cases hpr : parseRows pd df.rows with
      | none =>
        left
        rw [uploader_formatError pd store df hcols hpr]
      | some recs =>
        by_cases hse : store = []
        · subst hse
          right
          refine ⟨recs, rfl, ?_⟩
          rw [uploader_loaded pd df recs hcols hpr]
          show recs = [] ++ recs.filter (fun r => !(storeIds []).contains r.id)
          rw [List.nil_append]
          exact (List.filter_eq_self.mpr (fun r _ => rfl)).symm
        · rw [uploader_merge pd store df recs hse hcols hpr]
          split
          · right
            exact ⟨recs, rfl, rfl⟩
          · left
            rfl
    · left
      rw [uploader_schemaError pd store df (Bool.eq_false_iff.mpr hcols)]

/-- **C7** exercised: a parser that rejects the one malformed date cell
aborts the whole two-row import and leaves the one-record store
unchanged. -/
theorem claim_C7_format_error_atomic_witness :
    display_csv_uploader (fun s => if s = "bad" then none else some 0)
        [⟨"UPDATE-1001", "c", "u", "s", "p", 0⟩]
        ⟨requiredCols, [⟨"B-2", "c", "u", "s", "p", "2024-01-01"⟩,
                        ⟨"B-3", "c", "u", "s", "p", "bad"⟩]⟩ =
      ⟨[⟨"UPDATE-1001", "c", "u", "s", "p", 0⟩], none, none, .formatError⟩ :=
  (claim_C7_format_error_atomic (fun s => if s = "bad" then none else some 0) _ _).1
    (by decide) ⟨⟨"B-3", "c", "u", "s", "p", "bad"⟩, by decide, by decide⟩

/-! ## Claim C8: end-to-end first add -/

/-- **C8**: starting from the empty store, submitting the add-update form
with description "Fix login bug" and priority "High" (under any category
selection that resolves, i.e. not a blank `Custom`) yields a store with
exactly one record: id `UPDATE-1001`, status `Not Started`, priority
`High`, and `date_logged` equal to the current date (the `today` value the
form stamps via `pd.to_datetime(datetime.date.today())`). -/
theorem claim_C8_first_add (today : Int) (category_selection custom_category : String)
    (h : (if category_selection = "Custom" ∧ custom_category ≠ "" then custom_category
          else category_selection) ≠ "Custom") :
    display_add_update_form today category_selection custom_category
        "Fix login bug" "High" [] =
      [{ id := "UPDATE-1001",
         category := (if category_selection = "Custom" ∧ custom_category ≠ ""
                      then custom_category else category_selection),
         update := "Fix login bug", status := "Not Started", priority := "High",
         date_logged := today }] := by
  rw [display_add_update_form, if_neg (by decide)]
  dsimp only
  rw [if_neg h]
  have hid : newUpdateId ([] : List Record) = "UPDATE-1001" := by decide
  rw [hid]

/-- **C8** exercised with category "Operations Update" on day `5`. -/
theorem claim_C8_first_add_witness :
    display_add_update_form 5 "Operations Update" "" "Fix login bug" "High" [] =
      [{ id := "UPDATE-1001", category := "Operations Update",
         update := "Fix login bug", status := "Not Started", priority := "High",
         date_logged := 5 }] := by
  have h := claim_C8_first_add 5 "Operations Update" "" (by decide)
  rw [h]
  decide

/-! ## Claim C9: empty-store import is verbatim, with no duplicate check -/

/-- **C9**: when the store is empty, a schema-valid, date-parsable upload
becomes the store contents verbatim and in source order — no duplicate
check of any kind runs, so the `ID` column of the new store is exactly the
`ID` column of the file, repetitions included. -/
theorem claim_C9_empty_store_verbatim (pd : String → Option Int) (df : UploadedDf)
    (recs : List Record)
    (hcols : requiredCols.all (fun c => df.cols.contains c) = true)
    (hpr : parseRows pd df.rows = some recs) :
    display_csv_uploader pd [] df =
      ⟨recs, some recs.length, none, .loaded⟩ ∧
    (display_csv_uploader pd [] df).store.map Record.id = df.rows.map RawRow.id := by
  refine ⟨uploader_loaded pd df recs hcols hpr, ?_⟩
  rw [uploader_loaded pd df recs hcols hpr]
  exact parseRows_map_id pd df.rows recs hpr

/-- **C9** exercised: a file whose two rows share the id `X-1`, imported
into the empty store, produces a store whose `ID` column is
`["X-1", "X-1"]` — the same id twice. -/
theorem claim_C9_empty_store_verbatim_witness :
    (display_csv_uploader (fun _ => some 0) []
        ⟨requiredCols, [⟨"X-1", "c", "u", "s", "p", "d"⟩,
                        ⟨"X-1", "c2", "u2", "s2", "p2", "d"⟩]⟩).store.map Record.id =
      ["X-1", "X-1"] := by
  have h := (claim_C9_empty_store_verbatim (fun _ => some 0)
    ⟨requiredCols, [⟨"X-1", "c", "u", "s", "p", "d"⟩,
                    ⟨"X-1", "c2", "u2", "s2", "p2", "d"⟩]⟩
    [⟨"X-1", "c", "u", "s", "p", 0⟩, ⟨"X-1", "c2", "u2", "s2", "p2", 0⟩]
    (by decide) (by decide)).2
  rw [h]
  decide

/-! ## Claim C10: merging never disturbs the existing records -/

/-- **C10**: for every CSV merge into a non-empty store of size `N`
(schema-valid, dates parsable), the first `N` records of the resulting
store are exactly the prior store's records, unchanged and in their
original order, and what follows them is exactly the filtered list of
appended rows. -/
theorem claim_C10_merge_frame (pd : String → Option Int) (store : List Record)
    (df : UploadedDf) (recs : List Record) (hne : store ≠ [])
    (hcols : requiredCols.all (fun c => df.cols.contains c) = true)
    (hpr : parseRows pd df.rows = some recs) :
    (display_csv_uploader pd store df).store.take store.length = store ∧
    (display_csv_uploader pd store df).store.drop store.length =
      recs.filter (fun r => !(storeIds store).contains r.id) := by
  rw [uploader_merge pd store df recs hne hcols hpr]
  split
  · constructor
    · exact List.take_left store _
    · exact List.drop_left store _
  · rename_i hpos
    have hF : recs.filter (fun r => !(storeIds store).contains r.id) = [] :=
      List.length_eq_zero.mp (by omega)
    constructor
    · exact List.take_length store
    · rw [hF]
      exact List.drop_length store

/-- **C10** exercised: merging a two-row file (one duplicate id, one new)
into a one-record store keeps the existing record first and unchanged and
appends exactly the new one. -/
theorem claim_C10_merge_frame_witness :
    (display_csv_uploader (fun _ => some 0)
        [⟨"A-1", "c", "u", "s", "p", 0⟩]
        ⟨requiredCols, [⟨"A-1", "cx", "ux", "sx", "px", "d"⟩,
                        ⟨"B-2", "c2", "u2", "s2", "p2", "d"⟩]⟩).store.take 1 =
      [⟨"A-1", "c", "u", "s", "p", 0⟩] ∧
    (display_csv_uploader (fun _ => some 0)
        [⟨"A-1", "c", "u", "s", "p", 0⟩]
        ⟨requiredCols, [⟨"A-1", "cx", "ux", "sx", "px", "d"⟩,
                        ⟨"B-2", "c2", "u2", "s2", "p2", "d"⟩]⟩).store.drop 1 =
      [⟨"B-2", "c2", "u2", "s2", "p2", 0⟩] := by
  have h := claim_C10_merge_frame (fun _ => some 0)
    [⟨"A-1", "c", "u", "s", "p", 0⟩]
    ⟨requiredCols, [⟨"A-1", "cx", "ux", "sx", "px", "d"⟩,
                    ⟨"B-2", "c2", "u2", "s2", "p2", "d"⟩]⟩
    [⟨"A-1", "cx", "ux", "sx", "px", 0⟩, ⟨"B-2", "c2", "u2", "s2", "p2", 0⟩]
    (by simp) (by decide) (by decide)
  exact ⟨h.1, h.2.trans (by decide)⟩
